import Mathlib

/-
  Shallow embedding of src/src/nasa_ads_mcp/server.py (nasa-ads-mcp).

  The module exposes ten MCP tools over the NASA ADS bibliographic
  service.  The embedding models:
    * the outbound service (ads.SearchQuery, the /metrics POST and the
      /biblib endpoints) as a pure oracle `Backend`; each handler also
      returns the list of gateway calls it issued, in order, so that
      claims about "which outbound calls happen" are statable;
    * Python exceptions raised out of `call_tool` as `Except.error`
      (the handlers themselves catch all their internal failures and
      return error-text envelopes, which the embedding mirrors);
    * Python truthiness on the optional record fields exactly where the
      source relies on it (`x or d`, `x if x else d`): a missing list
      field and an empty list field are both falsy, so both are
      modelled as the empty list; a missing scalar is `Option.none`.
  JSON numbers that the source merely renders into the metrics text
  (with fixed decimal formats) are modelled as their rendered strings,
  since no control flow of the source depends on their values.
-/

namespace NasaAdsMcp

/-- One MCP content block; the source only ever builds text blocks
(`TextContent(type="text", text=...)`). -/
structure TextContent where
  type : String := "text"
  text : String
  deriving DecidableEq, Repr

/-- A raw JSON argument value as it arrives in `call_tool`.  The input
schemas of the ten tools use only strings, integers, booleans and
arrays of strings. -/
inductive ArgValue where
  | str (s : String)
  | int (n : Int)
  | boolean (b : Bool)
  | list (l : List String)
  deriving DecidableEq, Repr

/-- The raw argument mapping of a CallRequest. -/
abbrev Arguments := List (String × ArgValue)

/-- A Python exception escaping `call_tool`: `arguments[k]` raises
`KeyError(k)` and the final else-branch raises `ValueError`.  The
`typeError` constructor marks an argument present with a type outside
the declared schema; the source performs no type check there (the raw
value would flow on untyped), and no theorem below exercises this
unmodelled path. -/
inductive DispatchError where
  | keyError (k : String)
  | valueError (msg : String)
  | typeError (k : String)
  deriving DecidableEq, Repr

/-- A paper record as consumed from `ads.SearchQuery` results.  In the
source, `title`, `author`, `keyword` and `doi` are lists that may also
be `None`; both cases are falsy and both are modelled as `[]`.  `year`
is interpolated verbatim into f-strings, so it is kept as the string
that rendering would produce. -/
structure Paper where
  bibcode : String
  title : List String := []
  author : List String := []
  year : String := ""
  citation_count : Option Nat := none
  abstract : Option String := none
  keyword : List String := []
  doi : List String := []
  pub : Option String := none
  deriving DecidableEq, Repr

/-- The keyword arguments of one `ads.SearchQuery(...)` construction. -/
structure SearchParams where
  q : Option String := none
  bibcode : Option String := none
  author : Option String := none
  fl : List String := []
  rows : Option Int := none
  sort : Option String := none
  deriving DecidableEq, Repr

/-- The `"citation stats"` object of a /metrics response.  Each field
holds the token the source renders for it, i.e. the result of
`stats.get(key, 0)` pushed through the f-string format used at that
line. -/
structure CitationStats where
  totalCitations : String := "0"
  totalRefereedCitations : String := "0"
  selfCitations : String := "0"
  avgCitations : String := "0.0"
  medianCitations : String := "0"
  normalizedCitations : String := "0.0"
  totalReads : String := "0"
  avgReadsPerPaper : String := "0.0"
  medianReads : String := "0"
  deriving DecidableEq, Repr

/-- The `"indicators"` object of a /metrics response, same rendered-
string convention as `CitationStats`; the two handlers format the
m-index with different precisions, so both renderings are carried. -/
structure Indicators where
  h : String := "0"
  m2 : String := "0.00"
  m3 : String := "0.000"
  i10 : String := "0"
  i100 : String := "0"
  g : String := "0"
  tori : String := "0.0"
  riq : String := "0"
  deriving DecidableEq, Repr

/-- A decoded /metrics response body: the source only tests membership
of the `"citation stats"` and `"indicators"` keys. -/
structure MetricsData where
  citationStats : Option CitationStats := none
  indicators : Option Indicators := none
  deriving DecidableEq, Repr

/-- One entry of the `"libraries"` array returned by
GET /biblib/libraries; `lib.get(...)` defaults are applied at the
formatting site. -/
structure Library where
  name : Option String := none
  id : Option String := none
  description : Option String := none
  num_documents : Option Nat := none
  public : Bool := false
  deriving DecidableEq, Repr

/-- The body returned by GET /biblib/libraries/{id}. -/
structure LibraryDoc where
  name : Option String := none
  documents : List String := []
  deriving DecidableEq, Repr

/-- The body returned by POST /biblib/libraries (library creation). -/
structure CreateResp where
  id : Option String := none
  deriving DecidableEq, Repr

/-- One outbound call to the external service, as issued by a handler:
an `ads.SearchQuery`, the /metrics POST, or one of the /biblib
endpoints (create carries name, description, public; add carries the
library id and the bibcode list of its payload). -/
inductive GatewayCall where
  | search (p : SearchParams)
  | metricsPost (bibcodes : List String)
  | biblibList
  | biblibGet (libraryId : String)
  | biblibCreate (name : String) (description : String) (public : Bool)
  | biblibAdd (libraryId : String) (bibcodes : List String)
  deriving DecidableEq, Repr

/-- The external bibliographic service as a pure oracle.  `.error e`
models a raised transport error (requests exception or non-2xx status
via `raise_for_status`), with `e` the rendered `str(e)`; `.ok` models a
decoded success body.  `biblibAdd` returns the raw response body as an
uninterpreted string because the source never reads it. -/
structure Backend where
  search : SearchParams → Except String (List Paper)
  metricsPost : List String → Except String MetricsData
  biblibList : Except String (List Library)
  biblibGet : String → Except String LibraryDoc
  biblibCreate : String → String → Bool → Except String CreateResp
  biblibAdd : String → List String → Except String String

/-- Python `s or d` for an optional string: `None` and `""` are falsy. -/
def pyOrStr (v : Option String) (d : String) : String :=
  match v with
  | none => d
  | some s => if s.isEmpty then d else s

/-- Python truthiness of an optional string (used for `if years:`). -/
def pyTruthy (v : Option String) : Bool :=
  match v with
  | none => false
  | some s => !s.isEmpty

/-- Python `paper.citation_count or 0` (both `None` and `0` give `0`). -/
def citationsOrZero (v : Option Nat) : Nat := v.getD 0

/-- Python `paper.title[0] if paper.title else "No title"`. -/
def titleOrPlaceholder (title : List String) : String :=
  match title with
  | [] => "No title"
  | t :: _ => t

/-- Builds one text-block envelope, as `[TextContent(type="text", text=s)]`. -/
def textEnvelope (s : String) : List TextContent := [{ text := s }]

/-- The `sort_map` dict of `search_papers`. -/
def sort_map : List (String × String) :=
  [("date", "date desc"),
   ("citation_count", "citation_count desc"),
   ("relevance", "score desc")]

/-- `sort_map.get(sort, "date desc")` in `search_papers`. -/
def sortMapGet (sort : String) : String :=
  (sort_map.lookup sort).getD "date desc"

/-- The truncated author string of one `search_papers` result line:
first three authors, `"Unknown"` when the author list is falsy, and an
`" et al. (k authors)"` suffix once more than three authors exist. -/
def searchAuthorStr (author : List String) : String :=
  let authors := if author.isEmpty then ["Unknown"] else author.take 3
  let s := String.intercalate ", " authors
  if !author.isEmpty && author.length > 3 then
    s ++ " et al. (" ++ toString author.length ++ " authors)"
  else s

/-- One numbered result line of `search_papers` (1-based index). -/
def formatSearchPaper (i : Nat) (p : Paper) : String :=
  toString i ++ ". " ++ titleOrPlaceholder p.title ++
  "\n   Authors: " ++ searchAuthorStr p.author ++
  "\n   Year: " ++ p.year ++
  "\n   Citations: " ++ toString (citationsOrZero p.citation_count) ++
  "\n   Bibcode: " ++ p.bibcode ++ "\n"

/-- The `ads.SearchQuery` parameters `search_papers` builds:
`rows=min(max_results, 50)` and the mapped sort token. -/
def searchPapersParams (query : String) (max_results : Int) (sort : String) :
    SearchParams :=
  { q := some query,
    fl := ["bibcode", "title", "author", "year", "citation_count", "pubdate"],
    rows := some (min max_results 50),
    sort := some (sortMapGet sort) }

/-- Handler `search_papers(query, max_results, sort)`. -/
def search_papers (b : Backend) (query : String) (max_results : Int)
    (sort : String) : List TextContent × List GatewayCall :=
  let p : SearchParams := searchPapersParams query max_results sort
  match b.search p with
  | .error e => (textEnvelope ("Error searching papers: " ++ e), [.search p])
  | .ok papers =>
    let results := papers.enum.map (fun ip => formatSearchPaper (ip.1 + 1) ip.2)
    if results.isEmpty then
      (textEnvelope ("No papers found for query: " ++ query), [.search p])
    else
      (textEnvelope ("Found " ++ toString results.length ++ " papers for \x27" ++
        query ++ "\x27:\n\n" ++ String.intercalate "\n" results), [.search p])

/-- The `ads.SearchQuery` parameters of `get_paper_details`. -/
def detailsParams (bibcode : String) : SearchParams :=
  { bibcode := some bibcode,
    fl := ["bibcode", "title", "author", "year", "citation_count",
           "abstract", "keyword", "doi", "pubdate", "pub"] }

/-- The detail block of `get_paper_details`: fixed field order with a
placeholder for every missing optional field. -/
def formatPaperDetails (p : Paper) : String :=
  let author_str :=
    String.intercalate "; " (if p.author.isEmpty then ["Unknown"] else p.author)
  let keywords :=
    if p.keyword.isEmpty then "None" else String.intercalate ", " p.keyword
  String.intercalate "\n"
    [ "Title: " ++ titleOrPlaceholder p.title,
      "Authors: " ++ author_str,
      "Publication: " ++ pyOrStr p.pub "Unknown",
      "Year: " ++ p.year,
      "Citations: " ++ toString (citationsOrZero p.citation_count),
      "DOI: " ++ (match p.doi with | [] => "N/A" | d :: _ => d),
      "Keywords: " ++ keywords,
      "Bibcode: " ++ p.bibcode,
      "",
      "Abstract:",
      pyOrStr p.abstract "No abstract available" ]

/-- Handler `get_paper_details(bibcode)`. -/
def get_paper_details (b : Backend) (bibcode : String) :
    List TextContent × List GatewayCall :=
  let p := detailsParams bibcode
  match b.search p with
  | .error e => (textEnvelope ("Error getting paper details: " ++ e), [.search p])
  | .ok [] => (textEnvelope ("Paper not found: " ++ bibcode), [.search p])
  | .ok (paper :: _) => (textEnvelope (formatPaperDetails paper), [.search p])

/-- One numbered result line of `get_author_papers`. -/
def formatAuthorPaper (i : Nat) (p : Paper) : String :=
  toString i ++ ". " ++ titleOrPlaceholder p.title ++ " (" ++ p.year ++ ")" ++
  "\n   Citations: " ++ toString (citationsOrZero p.citation_count) ++
  " | Bibcode: " ++ p.bibcode ++ "\n"

/-- The `ads.SearchQuery` parameters `get_author_papers` builds from
the already-mapped sort token: `rows=min(max_results, 100)`. -/
def authorPapersParams (author : String) (max_results : Int)
    (sort_param : String) : SearchParams :=
  { author := some author,
    fl := ["bibcode", "title", "year", "citation_count", "pubdate"],
    rows := some (min max_results 100),
    sort := some sort_param }

/-- Handler `get_author_papers(author, max_results, sort)`.  Note the
sort mapping: `"date desc" if sort == "date" else "citation_count desc"`. -/
def get_author_papers (b : Backend) (author : String) (max_results : Int)
    (sort : String) : List TextContent × List GatewayCall :=
  let sort_param := if sort = "date" then "date desc" else "citation_count desc"
  let p : SearchParams := authorPapersParams author max_results sort_param
  match b.search p with
  | .error e => (textEnvelope ("Error getting author papers: " ++ e), [.search p])
  | .ok papers =>
    let results := papers.enum.map (fun ip => formatAuthorPaper (ip.1 + 1) ip.2)
    let total_citations := (papers.map (fun q => citationsOrZero q.citation_count)).sum
    if results.isEmpty then
      (textEnvelope ("No papers found for author: " ++ author), [.search p])
    else
      (textEnvelope ("Found " ++ toString results.length ++ " papers by \x27" ++
        author ++ "\x27 (Total citations: " ++ toString total_citations ++
        "):\n\n" ++ String.intercalate "\n" results), [.search p])

/-- The `ads.SearchQuery(bibcode=bibcode)` lookup used inside the
`export_bibtex` loop (no field projection is given there). -/
def bibcodeLookupParams (bc : String) : SearchParams :=
  { bibcode := some bc }

/-- One generated BibTeX entry of `export_bibtex`. -/
def bibtexEntry (bibcode : String) (p : Paper) : String :=
  let authors_str :=
    if p.author.isEmpty then "Unknown" else String.intercalate " and " p.author
  let title := titleOrPlaceholder p.title
  "@ARTICLE\x7b" ++ bibcode ++ ",\n" ++
  "    author = \x7b" ++ authors_str ++ "\x7d,\n" ++
  "    title = \x7b" ++ title ++ "\x7d,\n" ++
  "    journal = \x7b" ++ pyOrStr p.pub "Unknown" ++ "\x7d,\n" ++
  "    year = " ++ p.year ++ ",\n" ++
  "    adsurl = \x7bhttps://ui.adsabs.harvard.edu/abs/" ++ bibcode ++ "\x7d,\n" ++
  "\x7d\n"

/-- The per-bibcode loop of `export_bibtex`: each bibcode is looked up
once; an empty result appends a commented placeholder line, a found
paper appends its BibTeX entry, and a raised lookup error aborts the
loop (the surrounding try/except renders it). -/
def exportLoop (b : Backend) :
    List String → Except String (List String) × List GatewayCall
  | [] => (.ok [], [])
  | bc :: rest =>
    let p := bibcodeLookupParams bc
    match b.search p with
    | .error e => (.error e, [.search p])
    | .ok papers =>
      let entry :=
        match papers with
        | [] => "% Paper not found: " ++ bc ++ "\n"
        | paper :: _ => bibtexEntry bc paper
      let r := exportLoop b rest
      (r.1.map (fun es => entry :: es), GatewayCall.search p :: r.2)

/-- Handler `export_bibtex(bibcodes)`. -/
def export_bibtex (b : Backend) (bibcodes : List String) :
    List TextContent × List GatewayCall :=
  match exportLoop b bibcodes with
  | (.error e, log) => (textEnvelope ("Error exporting BibTeX: " ++ e), log)
  | (.ok entries, log) =>
    if entries.isEmpty then
      (textEnvelope "No valid bibcodes provided", log)
    else
      (textEnvelope ("BibTeX Citations:\n\n" ++ String.intercalate "\n" entries), log)

/-- The metrics block of `get_paper_metrics` (citation stats, then the
indicator section when present). -/
def formatPaperMetrics (stats : CitationStats) (ind : Option Indicators) : String :=
  let lines :=
    ["Paper Metrics:",
     "Total Citations: " ++ stats.totalCitations,
     "Total Refereed Citations: " ++ stats.totalRefereedCitations,
     "Average Citations per Paper: " ++ stats.avgCitations,
     "Median Citations: " ++ stats.medianCitations,
     "Normalized Citations: " ++ stats.normalizedCitations,
     "Total Reads: " ++ stats.totalReads,
     "Average Reads per Paper: " ++ stats.avgReadsPerPaper]
  let lines := lines ++
    (match ind with
     | none => []
     | some i =>
       ["", "Indicators:",
        "h-index: " ++ i.h,
        "m-index: " ++ i.m2,
        "i10-index: " ++ i.i10,
        "g-index: " ++ i.g])
  String.intercalate "\n" lines

/-- Handler `get_paper_metrics(bibcodes)`. -/
def get_paper_metrics (b : Backend) (bibcodes : List String) :
    List TextContent × List GatewayCall :=
  match b.metricsPost bibcodes with
  | .error e =>
    (textEnvelope ("Error getting paper metrics: " ++ e), [.metricsPost bibcodes])
  | .ok data =>
    match data.citationStats with
    | some stats =>
      (textEnvelope (formatPaperMetrics stats data.indicators), [.metricsPost bibcodes])
    | none =>
      (textEnvelope "No metrics available for these papers", [.metricsPost bibcodes])

/-- The query string `get_author_metrics` builds: the quoted author
filter, plus a year filter when `years` is truthy. -/
def authorMetricsQuery (author : String) (years : Option String) : String :=
  "author:\"" ++ author ++ "\"" ++
  (if pyTruthy years then " year:" ++ years.getD "" else "")

/-- The bibcode-resolution search of `get_author_metrics`
(`fl=["bibcode"], rows=2000`). -/
def authorMetricsParams (author : String) (years : Option String) : SearchParams :=
  { q := some (authorMetricsQuery author years),
    fl := ["bibcode"],
    rows := some 2000 }

/-- The author-metrics block: header, paper count, then the citation
statistics, impact indicator and read statistics sections, the first
and third gated on `"citation stats"` and the second on `"indicators"`. -/
def formatAuthorMetrics (author : String) (years : Option String)
    (nPapers : Nat) (data : MetricsData) : String :=
  let header := "Author Metrics for " ++ author ++
    (if pyTruthy years then " (" ++ years.getD "" ++ ")" else "")
  let lines := [header, "Total Papers: " ++ toString nPapers ++ "\n"]
  let lines := lines ++
    (match data.citationStats with
     | none => []
     | some stats =>
       ["Citation Statistics:",
        "  Total Citations: " ++ stats.totalCitations,
        "  Refereed Citations: " ++ stats.totalRefereedCitations,
        "  Self-Citations: " ++ stats.selfCitations,
        "  Average Citations/Paper: " ++ stats.avgCitations,
        "  Median Citations: " ++ stats.medianCitations,
        "  Normalized Citations: " ++ stats.normalizedCitations])
  let lines := lines ++
    (match data.indicators with
     | none => []
     | some i =>
       ["", "Impact Indicators:",
        "  h-index: " ++ i.h,
        "  m-index: " ++ i.m3,
        "  i10-index: " ++ i.i10,
        "  i100-index: " ++ i.i100,
        "  g-index: " ++ i.g,
        "  tori-index: " ++ i.tori,
        "  riq-index: " ++ i.riq])
  let lines := lines ++
    (match data.citationStats with
     | none => []
     | some stats =>
       ["", "Read Statistics:",
        "  Total Reads: " ++ stats.totalReads,
        "  Average Reads/Paper: " ++ stats.avgReadsPerPaper,
        "  Median Reads: " ++ stats.medianReads])
  String.intercalate "\n" lines

/-- Handler `get_author_metrics(author, years)`: resolve the author
bibcodes by one search (rows=2000); on an empty bibcode list return
the "No papers found" envelope without a metrics call; otherwise issue
exactly one metrics call for that bibcode list. -/
def get_author_metrics (b : Backend) (author : String) (years : Option String) :
    List TextContent × List GatewayCall :=
  let p := authorMetricsParams author years
  match b.search p with
  | .error e => (textEnvelope ("Error getting author metrics: " ++ e), [.search p])
  | .ok papers =>
    let bibcodes := papers.map (fun pr => pr.bibcode)
    if bibcodes.isEmpty then
      (textEnvelope ("No papers found for author: " ++ author), [.search p])
    else
      match b.metricsPost bibcodes with
      | .error e =>
        (textEnvelope ("Error getting author metrics: " ++ e),
         [.search p, .metricsPost bibcodes])
      | .ok data =>
        (textEnvelope (formatAuthorMetrics author years bibcodes.length data),
         [.search p, .metricsPost bibcodes])

/-- One bullet of the `list_libraries` output. -/
def formatLibrary (lib : Library) : String :=
  "• " ++ lib.name.getD "Unnamed" ++ " (ID: " ++ lib.id.getD "unknown" ++ ")\n" ++
  "  " ++ lib.description.getD "No description" ++ "\n" ++
  "  Papers: " ++ toString (lib.num_documents.getD 0) ++ " | " ++
  (if lib.public then "Public" else "Private") ++ "\n"

/-- Handler `list_libraries()`. -/
def list_libraries (b : Backend) : List TextContent × List GatewayCall :=
  match b.biblibList with
  | .error e => (textEnvelope ("Error listing libraries: " ++ e), [.biblibList])
  | .ok libraries =>
    if libraries.isEmpty then
      (textEnvelope "No libraries found. Create one with the create_library tool!",
       [.biblibList])
    else
      (textEnvelope (String.intercalate "\n"
        ("Your ADS Libraries:\n" :: libraries.map formatLibrary)), [.biblibList])

/-- The truncated author string of one library listing line: first two
authors, `"Unknown"` when falsy, and a bare `" et al."` suffix (no
author count) once more than two authors exist. -/
def libraryAuthorStr (author : List String) : String :=
  let authors := if author.isEmpty then ["Unknown"] else author.take 2
  let s := String.intercalate ", " authors
  if !author.isEmpty && author.length > 2 then s ++ " et al." else s

/-- One numbered line of the `get_library_papers` output. -/
def formatLibraryPaper (i : Nat) (p : Paper) : String :=
  toString i ++ ". " ++ titleOrPlaceholder p.title ++
  "\n   " ++ libraryAuthorStr p.author ++ " (" ++ p.year ++ ") | Citations: " ++
  toString (citationsOrZero p.citation_count) ++
  "\n   Bibcode: " ++ p.bibcode ++ "\n"

/-- The follow-up search of `get_library_papers`: OR-combination of the
collection bibcodes, rows bounded by the bibcode count. -/
def libraryPapersParams (bibcodes : List String) : SearchParams :=
  { q := some ("bibcode:(" ++ String.intercalate " OR " bibcodes ++ ")"),
    fl := ["bibcode", "title", "author", "year", "citation_count"],
    rows := some (bibcodes.length : Int) }

/-- Handler `get_library_papers(library_id)`. -/
def get_library_papers (b : Backend) (library_id : String) :
    List TextContent × List GatewayCall :=
  match b.biblibGet library_id with
  | .error e =>
    (textEnvelope ("Error getting library papers: " ++ e), [.biblibGet library_id])
  | .ok data =>
    let bibcodes := data.documents
    if bibcodes.isEmpty then
      (textEnvelope ("No papers in library " ++ library_id), [.biblibGet library_id])
    else
      let p := libraryPapersParams bibcodes
      match b.search p with
      | .error e =>
        (textEnvelope ("Error getting library papers: " ++ e),
         [.biblibGet library_id, .search p])
      | .ok papers =>
        let header := "Papers in library " ++ data.name.getD library_id ++ ":\n"
        let lines := header :: papers.enum.map (fun ip => formatLibraryPaper (ip.1 + 1) ip.2)
        (textEnvelope (String.intercalate "\n" lines),
         [.biblibGet library_id, .search p])

/-- Handler `create_library(name, description, public)`.  A missing
`"id"` in the response body renders as Python `None` does. -/
def create_library (b : Backend) (name : String) (description : String)
    (public : Bool) : List TextContent × List GatewayCall :=
  match b.biblibCreate name description public with
  | .error e =>
    (textEnvelope ("Error creating library: " ++ e),
     [.biblibCreate name description public])
  | .ok data =>
    (textEnvelope ("✓ Created library \x27" ++ name ++ "\x27\nLibrary ID: " ++
      (match data.id with | none => "None" | some i => i) ++
      "\n\nUse add_to_library to add papers to this library."),
     [.biblibCreate name description public])

/-- Handler `add_to_library(library_id, bibcodes)`: one POST whose
payload carries the bibcode list verbatim; the success text counts the
requested bibcodes and never reads the response body. -/
def add_to_library (b : Backend) (library_id : String) (bibcodes : List String) :
    List TextContent × List GatewayCall :=
  match b.biblibAdd library_id bibcodes with
  | .error e =>
    (textEnvelope ("Error adding to library: " ++ e), [.biblibAdd library_id bibcodes])
  | .ok _ =>
    (textEnvelope ("✓ Added " ++ toString bibcodes.length ++ " paper(s) to library " ++
      library_id), [.biblibAdd library_id bibcodes])

/-- The ten operation names declared by `list_tools` and routed by
`call_tool`, in declaration order. -/
def toolNames : List String :=
  ["search_papers", "get_paper_details", "get_author_papers", "export_bibtex",
   "get_paper_metrics", "get_author_metrics", "list_libraries",
   "get_library_papers", "create_library", "add_to_library"]

/-- `arguments[k]` for a string-typed required field: a missing key
raises `KeyError(k)`. -/
def reqStr (args : Arguments) (k : String) : Except DispatchError String :=
  match args.lookup k with
  | none => .error (.keyError k)
  | some (.str s) => .ok s
  | some _ => .error (.typeError k)

/-- `arguments[k]` for a string-array required field. -/
def reqList (args : Arguments) (k : String) : Except DispatchError (List String) :=
  match args.lookup k with
  | none => .error (.keyError k)
  | some (.list l) => .ok l
  | some _ => .error (.typeError k)

/-- `arguments.get(k, d)` for an integer field (never raises on a
missing key). -/
def optIntD (args : Arguments) (k : String) (d : Int) : Except DispatchError Int :=
  match args.lookup k with
  | none => .ok d
  | some (.int n) => .ok n
  | some _ => .error (.typeError k)

/-- `arguments.get(k, d)` for a string field. -/
def optStrD (args : Arguments) (k : String) (d : String) : Except DispatchError String :=
  match args.lookup k with
  | none => .ok d
  | some (.str s) => .ok s
  | some _ => .error (.typeError k)

/-- `arguments.get(k)` for a string field whose default is `None`. -/
def optStrOpt (args : Arguments) (k : String) : Except DispatchError (Option String) :=
  match args.lookup k with
  | none => .ok none
  | some (.str s) => .ok (some s)
  | some _ => .error (.typeError k)

/-- `arguments.get(k, d)` for a boolean field. -/
def optBoolD (args : Arguments) (k : String) (d : Bool) : Except DispatchError Bool :=
  match args.lookup k with
  | none => .ok d
  | some (.boolean v) => .ok v
  | some _ => .error (.typeError k)

/-- Runs one routed handler invocation: an argument-extraction error
escapes `call_tool` before the handler body runs, so no gateway call
has been issued at that point. -/
def runHandler (r : Except DispatchError (List TextContent × List GatewayCall)) :
    Except DispatchError (List TextContent) × List GatewayCall :=
  match r with
  | .error e => (.error e, [])
  | .ok (env, log) => (.ok env, log)

/-- The `call_tool` dispatcher: routes by operation name through the
if/elif chain of the source, extracts required arguments (raising
`KeyError` when absent) and `.get` defaults, invokes the handler, and
raises `ValueError("Unknown tool: ...")` in the final else-branch.
The second component is the list of outbound calls issued while
handling the request. -/
def call_tool (b : Backend) (name : String) (arguments : Arguments) :
    Except DispatchError (List TextContent) × List GatewayCall :=
  if name = "search_papers" then
    runHandler (do
      let q ← reqStr arguments "query"
      let mr ← optIntD arguments "max_results" 10
      let srt ← optStrD arguments "sort" "date"
      pure (search_papers b q mr srt))
  else if name = "get_paper_details" then
    runHandler (do
      let bc ← reqStr arguments "bibcode"
      pure (get_paper_details b bc))
  else if name = "get_author_papers" then
    runHandler (do
      let a ← reqStr arguments "author"
      let mr ← optIntD arguments "max_results" 20
      let srt ← optStrD arguments "sort" "date"
      pure (get_author_papers b a mr srt))
  else if name = "export_bibtex" then
    runHandler (do
      let bcs ← reqList arguments "bibcodes"
      pure (export_bibtex b bcs))
  else if name = "get_paper_metrics" then
    runHandler (do
      let bcs ← reqList arguments "bibcodes"
      pure (get_paper_metrics b bcs))
  else if name = "get_author_metrics" then
    runHandler (do
      let a ← reqStr arguments "author"
      let y ← optStrOpt arguments "years"
      pure (get_author_metrics b a y))
  else if name = "list_libraries" then
    runHandler (pure (list_libraries b))
  else if name = "get_library_papers" then
    runHandler (do
      let lid ← reqStr arguments "library_id"
      pure (get_library_papers b lid))
  else if name = "create_library" then
    runHandler (do
      let n ← reqStr arguments "name"
      let d ← optStrD arguments "description" ""
      let pb ← optBoolD arguments "public" false
      pure (create_library b n d pb))
  else if name = "add_to_library" then
    runHandler (do
      let lid ← reqStr arguments "library_id"
      let bcs ← reqList arguments "bibcodes"
      pure (add_to_library b lid bcs))
  else
    (.error (.valueError ("Unknown tool: " ++ name)), [])

/-- Is the dispatch result a returned envelope (as opposed to a raised
exception)? -/
def isEnvelope (r : Except DispatchError (List TextContent)) : Bool :=
  match r with
  | .ok _ => true
  | .error _ => false

/-- A concrete backend on which every lookup comes back empty and every
mutation succeeds with an empty body; used to evaluate the dispatcher
at concrete inputs. -/
def emptyBackend : Backend :=
  { search := fun _ => .ok [],
    metricsPost := fun _ => .ok {},
    biblibList := .ok [],
    biblibGet := fun _ => .ok {},
    biblibCreate := fun _ _ _ => .ok {},
    biblibAdd := fun _ _ => .ok "" }

/-- The parameters of the first `ads.SearchQuery` call in a gateway
log, used to observe what a handler sent to the backend. -/
def firstSearchParams : List GatewayCall → Option SearchParams
  | [] => none
  | GatewayCall.search p :: _ => some p
  | _ :: rest => firstSearchParams rest

theorem search_papers_snd (b : Backend) (q : String) (mr : Int) (srt : String) :
    (search_papers b q mr srt).2 = [GatewayCall.search (searchPapersParams q mr srt)] := by
  simp only [search_papers]
  cases b.search (searchPapersParams q mr srt)
  · rfl
  · rw [apply_ite Prod.snd]
    simp

theorem get_author_papers_snd (b : Backend) (a : String) (mr : Int) (srt : String) :
    (get_author_papers b a mr srt).2 =
      [GatewayCall.search (authorPapersParams a mr
        (if srt = "date" then "date desc" else "citation_count desc"))] := by
  simp only [get_author_papers]
  cases b.search (authorPapersParams a mr
    (if srt = "date" then "date desc" else "citation_count desc"))
  · rfl
  · rw [apply_ite Prod.snd]
    simp

/-- C1 counterexample: on the unknown operation name `"frobnicate"`,
`call_tool` does not yield an envelope at all; it raises
`ValueError("Unknown tool: frobnicate")`. -/
theorem C1_counterexample :
    (call_tool emptyBackend "frobnicate" []).1 =
      Except.error (DispatchError.valueError "Unknown tool: frobnicate") ∧
    isEnvelope (call_tool emptyBackend "frobnicate" []).1 = false := by
  constructor <;> rfl

/-- C1 (amended): for every operation name outside the ten-name
catalog, `call_tool` raises `ValueError("Unknown tool: <name>")` out
of the dispatcher, having issued no gateway call; it does not itself
convert the failure into an error-text envelope. -/
theorem C1_unknown_tool_raises (b : Backend) (name : String) (args : Arguments)
    (h : name ∉ toolNames) :
    call_tool b name args =
      (Except.error (DispatchError.valueError ("Unknown tool: " ++ name)), []) := by
  simp only [toolNames, List.mem_cons, List.not_mem_nil, or_false, not_or] at h
  obtain ⟨h1, h2, h3, h4, h5, h6, h7, h8, h9, h10⟩ := h
  simp [call_tool, h1, h2, h3, h4, h5, h6, h7, h8, h9, h10]

/-- C1 witness: the amended theorem applied at the concrete unknown
name `"frobnicate"`. -/
theorem C1_unknown_tool_raises_witness :
    call_tool emptyBackend "frobnicate" [] =
      (Except.error (DispatchError.valueError ("Unknown tool: " ++ "frobnicate")), []) :=
  C1_unknown_tool_raises emptyBackend "frobnicate" [] (by decide)

/-- C2 counterexample: `search_papers` invoked without `"query"` does
not produce a normalization-time error response; `call_tool` raises
`KeyError("query")` instead of returning an envelope. -/
theorem C2_counterexample :
    (call_tool emptyBackend "search_papers" []).1 =
      Except.error (DispatchError.keyError "query") ∧
    isEnvelope (call_tool emptyBackend "search_papers" []).1 = false := by
  constructor <;> rfl

/-- C2 (amended): a CallRequest that omits a required field makes
`call_tool` raise `KeyError` for that field before any outbound call is
attempted (the gateway log is empty); the raised exception is distinct
from the error-text envelopes produced for gateway failures, but it is
an exception escaping the dispatcher, not an error response of its own.
The conjunction covers every required field of every catalog operation:
`query`, `bibcode`, `author` (twice), `bibcodes` (three times),
`library_id` (twice) and `name`; for `add_to_library`, which requires
two fields, the second conjunct holds with the first field present as
the source evaluates `arguments["library_id"]` first. -/
theorem C2_missing_required_raises (b : Backend) (args : Arguments) (lid : String) :
    (args.lookup "query" = none →
      call_tool b "search_papers" args =
        (Except.error (DispatchError.keyError "query"), [])) ∧
    (args.lookup "bibcode" = none →
      call_tool b "get_paper_details" args =
        (Except.error (DispatchError.keyError "bibcode"), [])) ∧
    (args.lookup "author" = none →
      call_tool b "get_author_papers" args =
        (Except.error (DispatchError.keyError "author"), [])) ∧
    (args.lookup "bibcodes" = none →
      call_tool b "export_bibtex" args =
        (Except.error (DispatchError.keyError "bibcodes"), [])) ∧
    (args.lookup "bibcodes" = none →
      call_tool b "get_paper_metrics" args =
        (Except.error (DispatchError.keyError "bibcodes"), [])) ∧
    (args.lookup "author" = none →
      call_tool b "get_author_metrics" args =
        (Except.error (DispatchError.keyError "author"), [])) ∧
    (args.lookup "library_id" = none →
      call_tool b "get_library_papers" args =
        (Except.error (DispatchError.keyError "library_id"), [])) ∧
    (args.lookup "name" = none →
      call_tool b "create_library" args =
        (Except.error (DispatchError.keyError "name"), [])) ∧
    (args.lookup "library_id" = none →
      call_tool b "add_to_library" args =
        (Except.error (DispatchError.keyError "library_id"), [])) ∧
    (args.lookup "library_id" = some (ArgValue.str lid) →
      args.lookup "bibcodes" = none →
      call_tool b "add_to_library" args =
        (Except.error (DispatchError.keyError "bibcodes"), [])) := by
  refine ⟨?_, ?_, ?_, ?_, ?_, ?_, ?_, ?_, ?_, ?_⟩
  · intro h
    simp [call_tool, runHandler, reqStr, h, Bind.bind, Except.bind]
  · intro h
    simp [call_tool, runHandler, reqStr, h, Bind.bind, Except.bind]
  · intro h
    simp [call_tool, runHandler, reqStr, h, Bind.bind, Except.bind]
  · intro h
    simp [call_tool, runHandler, reqList, h, Bind.bind, Except.bind]
  · intro h
    simp [call_tool, runHandler, reqList, h, Bind.bind, Except.bind]
  · intro h
    simp [call_tool, runHandler, reqStr, h, Bind.bind, Except.bind]
  · intro h
    simp [call_tool, runHandler, reqStr, h, Bind.bind, Except.bind]
  · intro h
    simp [call_tool, runHandler, reqStr, h, Bind.bind, Except.bind]
  · intro h
    simp [call_tool, runHandler, reqStr, h, Bind.bind, Except.bind]
  · intro h1 h2
    simp [call_tool, runHandler, reqStr, reqList, h1, h2, Bind.bind, Except.bind]

/-- C3: the normalized row limit is `min(requested, ceiling)` with
ceiling 50 for `search_papers` and 100 for `get_author_papers`;
requesting 1000 yields exactly 50 resp. 100; and a CallRequest without
`max_results` dispatches with the catalog default (10 resp. 20), which
survives clamping unchanged. -/
theorem C3_max_results_clamped (b : Backend) (q a srt : String) (mr : Int) :
    (firstSearchParams (search_papers b q mr srt).2).map SearchParams.rows =
      some (some (min mr 50)) ∧
    (firstSearchParams (get_author_papers b a mr srt).2).map SearchParams.rows =
      some (some (min mr 100)) ∧
    (firstSearchParams (search_papers b q 1000 srt).2).map SearchParams.rows =
      some (some 50) ∧
    (firstSearchParams (get_author_papers b a 1000 srt).2).map SearchParams.rows =
      some (some 100) ∧
    (firstSearchParams (call_tool b "search_papers"
      [("query", ArgValue.str q)]).2).map SearchParams.rows = some (some 10) ∧
    (firstSearchParams (call_tool b "get_author_papers"
      [("author", ArgValue.str a)]).2).map SearchParams.rows = some (some 20) := by
  have hcs : (call_tool b "search_papers" [("query", ArgValue.str q)]).2 =
      (search_papers b q 10 "date").2 := rfl
  have hca : (call_tool b "get_author_papers" [("author", ArgValue.str a)]).2 =
      (get_author_papers b a 20 "date").2 := rfl
  refine ⟨?_, ?_, ?_, ?_, ?_, ?_⟩
  · rw [search_papers_snd]; rfl
  · rw [get_author_papers_snd]; rfl
  · rw [search_papers_snd]
    simp [firstSearchParams, searchPapersParams]
  · rw [get_author_papers_snd]
    simp [firstSearchParams, authorPapersParams]
  · rw [hcs, search_papers_snd]
    simp [firstSearchParams, searchPapersParams]
  · rw [hca, get_author_papers_snd]
    simp [firstSearchParams, authorPapersParams]

/-- C4 counterexample: an unrecognized sort token on
`get_author_papers` does not fall back to the date-descending default;
it is sent as `"citation_count desc"`. -/
theorem C4_counterexample :
    (firstSearchParams (get_author_papers emptyBackend "A" 20 "bogus").2).map
      SearchParams.sort = some (some "citation_count desc") ∧
    (some (some "citation_count desc") : Option (Option String)) ≠
      some (some "date desc") := by
  exact ⟨rfl, by decide⟩

/-- C4 (amended): `search_papers` maps the three declared sort choices
to their backend tokens and sends any unrecognized token as the
date-descending default, and an omitted sort dispatches as `"date"`,
giving `"date desc"` in both operations; but `get_author_papers` maps
only `"date"` to `"date desc"` and sends every other token, recognized
or not, as `"citation_count desc"`. -/
theorem C4_sort_mapping (b : Backend) (q a s : String) (mr : Int) :
    (firstSearchParams (search_papers b q mr "date").2).map SearchParams.sort =
      some (some "date desc") ∧
    (firstSearchParams (search_papers b q mr "citation_count").2).map SearchParams.sort =
      some (some "citation_count desc") ∧
    (firstSearchParams (search_papers b q mr "relevance").2).map SearchParams.sort =
      some (some "score desc") ∧
    (s ≠ "date" → s ≠ "citation_count" → s ≠ "relevance" →
      (firstSearchParams (search_papers b q mr s).2).map SearchParams.sort =
        some (some "date desc")) ∧
    (firstSearchParams (get_author_papers b a mr "date").2).map SearchParams.sort =
      some (some "date desc") ∧
    (s ≠ "date" →
      (firstSearchParams (get_author_papers b a mr s).2).map SearchParams.sort =
        some (some "citation_count desc")) ∧
    (firstSearchParams (call_tool b "search_papers"
      [("query", ArgValue.str q)]).2).map SearchParams.sort = some (some "date desc") ∧
    (firstSearchParams (call_tool b "get_author_papers"
      [("author", ArgValue.str a)]).2).map SearchParams.sort = some (some "date desc") := by
  have hcs : (call_tool b "search_papers" [("query", ArgValue.str q)]).2 =
      (search_papers b q 10 "date").2 := rfl
  have hca : (call_tool b "get_author_papers" [("author", ArgValue.str a)]).2 =
      (get_author_papers b a 20 "date").2 := rfl
  refine ⟨?_, ?_, ?_, ?_, ?_, ?_, ?_, ?_⟩
  · rw [search_papers_snd]; rfl
  · rw [search_papers_snd]; rfl
  · rw [search_papers_snd]; rfl
  · intro h1 h2 h3
    rw [search_papers_snd]
    have e1 : (s == "date") = false := beq_eq_false_iff_ne.mpr h1
    have e2 : (s == "citation_count") = false := beq_eq_false_iff_ne.mpr h2
    have e3 : (s == "relevance") = false := beq_eq_false_iff_ne.mpr h3
    simp [firstSearchParams, searchPapersParams, sortMapGet, sort_map,
      List.lookup, e1, e2, e3]
  · rw [get_author_papers_snd]; rfl
  · intro h
    rw [get_author_papers_snd]
    simp [firstSearchParams, authorPapersParams, h]
  · rw [hcs, search_papers_snd]; rfl
  · rw [hca, get_author_papers_snd]; rfl

/-- C4 witness: the amended theorem applied at the concrete
unrecognized sort token `"bogus"`. -/
theorem C4_sort_mapping_witness :
    (firstSearchParams (search_papers emptyBackend "q" 10 "bogus").2).map
      SearchParams.sort = some (some "date desc") ∧
    (firstSearchParams (get_author_papers emptyBackend "A" 20 "bogus").2).map
      SearchParams.sort = some (some "citation_count desc") :=
  ⟨(C4_sort_mapping emptyBackend "q" "A" "bogus" 10).2.2.2.1
      (by decide) (by decide) (by decide),
   (C4_sort_mapping emptyBackend "q" "A" "bogus" 20).2.2.2.2.2.1 (by decide)⟩

/-- C2 witness: the amended theorem applied concretely to every
operation with a required field — the empty argument mapping for the
first required field of each, and a mapping holding only `library_id`
for the second required field of `add_to_library`. -/
theorem C2_missing_required_raises_witness :
    call_tool emptyBackend "search_papers" [] =
      (Except.error (DispatchError.keyError "query"), []) ∧
    call_tool emptyBackend "get_paper_details" [] =
      (Except.error (DispatchError.keyError "bibcode"), []) ∧
    call_tool emptyBackend "get_author_papers" [] =
      (Except.error (DispatchError.keyError "author"), []) ∧
    call_tool emptyBackend "export_bibtex" [] =
      (Except.error (DispatchError.keyError "bibcodes"), []) ∧
    call_tool emptyBackend "get_paper_metrics" [] =
      (Except.error (DispatchError.keyError "bibcodes"), []) ∧
    call_tool emptyBackend "get_author_metrics" [] =
      (Except.error (DispatchError.keyError "author"), []) ∧
    call_tool emptyBackend "get_library_papers" [] =
      (Except.error (DispatchError.keyError "library_id"), []) ∧
    call_tool emptyBackend "create_library" [] =
      (Except.error (DispatchError.keyError "name"), []) ∧
    call_tool emptyBackend "add_to_library" [] =
      (Except.error (DispatchError.keyError "library_id"), []) ∧
    call_tool emptyBackend "add_to_library" [("library_id", ArgValue.str "L")] =
      (Except.error (DispatchError.keyError "bibcodes"), []) := by
  have h1 := C2_missing_required_raises emptyBackend [] "L"
  have h2 := C2_missing_required_raises emptyBackend
    [("library_id", ArgValue.str "L")] "L"
  exact ⟨h1.1 rfl, h1.2.1 rfl, h1.2.2.1 rfl, h1.2.2.2.1 rfl, h1.2.2.2.2.1 rfl,
    h1.2.2.2.2.2.1 rfl, h1.2.2.2.2.2.2.1 rfl, h1.2.2.2.2.2.2.2.1 rfl,
    h1.2.2.2.2.2.2.2.2.1 rfl, h2.2.2.2.2.2.2.2.2.2 rfl rfl⟩

/-- C5: given the bibcode-resolution search of `get_author_metrics`
(whose row ceiling is 2000), an empty result short-circuits into the
"No papers found" envelope with no metrics call, and a non-empty
result leads to exactly one metrics call against exactly the resolved
bibcode set. -/
theorem C5_author_metrics_short_circuit (b : Backend) (author : String)
    (years : Option String) (papers : List Paper)
    (h : b.search (authorMetricsParams author years) = Except.ok papers) :
    (authorMetricsParams author years).rows = some 2000 ∧
    (papers = [] →
      get_author_metrics b author years =
        (textEnvelope ("No papers found for author: " ++ author),
         [GatewayCall.search (authorMetricsParams author years)])) ∧
    (get_author_metrics b author years).2 =
      GatewayCall.search (authorMetricsParams author years) ::
        (if papers.isEmpty then []
         else [GatewayCall.metricsPost (papers.map (fun pr => pr.bibcode))]) := by
  refine ⟨rfl, ?_, ?_⟩
  · intro hp
    subst hp
    simp [get_author_metrics, h]
  · cases papers with
    | nil => simp [get_author_metrics, h]
    | cons p ps =>
      simp only [get_author_metrics, h, List.map_cons, List.isEmpty_cons]
      cases b.metricsPost (p.bibcode :: ps.map (fun pr => pr.bibcode)) <;> simp

/-- C5 witness: the theorem applied to a backend whose author search
resolves no bibcodes. -/
theorem C5_author_metrics_short_circuit_witness :
    emptyBackend.search (authorMetricsParams "A" none) = Except.ok [] ∧
    get_author_metrics emptyBackend "A" none =
      (textEnvelope ("No papers found for author: " ++ "A"),
       [GatewayCall.search (authorMetricsParams "A" none)]) :=
  ⟨rfl, (C5_author_metrics_short_circuit emptyBackend "A" none [] rfl).2.1 rfl⟩

/-- The entry `export_bibtex` contributes for one bibcode, as a
function of that single lookup: the generated BibTeX block when the
bibcode resolves to a paper, and the commented placeholder line naming
the bibcode when it resolves to nothing (the error case is unreachable
under the no-transport-failure hypotheses used below). -/
def exportEntry (b : Backend) (bc : String) : String :=
  match b.search (bibcodeLookupParams bc) with
  | .ok [] => "% Paper not found: " ++ bc ++ "\n"
  | .ok (paper :: _) => bibtexEntry bc paper
  | .error _ => ""

theorem exportLoop_ok (b : Backend) (l : List String)
    (h : ∀ bc ∈ l, ∃ ps, b.search (bibcodeLookupParams bc) = Except.ok ps) :
    exportLoop b l =
      (Except.ok (l.map (exportEntry b)),
       l.map (fun bc => GatewayCall.search (bibcodeLookupParams bc))) := by
  induction l with
  | nil => rfl
  | cons bc rest ih =>
    obtain ⟨ps, hps⟩ := h bc (List.mem_cons_self bc rest)
    have ih2 := ih (fun x hx => h x (List.mem_cons_of_mem bc hx))
    cases ps with
    | nil => simp [exportLoop, hps, ih2, exportEntry, Except.map]
    | cons p pp => simp [exportLoop, hps, ih2, exportEntry, Except.map]

/-- C6: when no lookup raises, the export succeeds as a whole with one
entry per requested bibcode, each depending on that bibcode lookup
alone: a commented "not found" placeholder naming the bibcode when it
resolves to no paper, the full BibTeX block otherwise; an unresolvable
bibcode degrades only its own entry and never fails the call. -/
theorem C6_export_degrades_per_entry (b : Backend) (bibcodes : List String)
    (h : ∀ bc ∈ bibcodes, ∃ ps, b.search (bibcodeLookupParams bc) = Except.ok ps) :
    export_bibtex b bibcodes =
      ((if bibcodes.isEmpty then textEnvelope "No valid bibcodes provided"
        else textEnvelope ("BibTeX Citations:\n\n" ++
          String.intercalate "\n" (bibcodes.map (exportEntry b)))),
       bibcodes.map (fun bc => GatewayCall.search (bibcodeLookupParams bc))) ∧
    (∀ bc ∈ bibcodes, b.search (bibcodeLookupParams bc) = Except.ok [] →
      exportEntry b bc = "% Paper not found: " ++ bc ++ "\n") ∧
    (∀ bc ∈ bibcodes, ∀ paper ps,
      b.search (bibcodeLookupParams bc) = Except.ok (paper :: ps) →
      exportEntry b bc = bibtexEntry bc paper) := by
  refine ⟨?_, ?_, ?_⟩
  · unfold export_bibtex
    rw [exportLoop_ok b bibcodes h]
    cases bibcodes with
    | nil => rfl
    | cons x xs => simp
  · intro bc _ hbc
    simp [exportEntry, hbc]
  · intro bc _ paper ps hbc
    simp [exportEntry, hbc]

/-- The paper of the spec example `2019ApJ...878...98S`, used as the
resolvable entry of the export witness. -/
def demoPaper : Paper :=
  { bibcode := "2019ApJ...878...98S", title := ["Stellar Demo"],
    author := ["Smith, A.", "Jones, B."], year := "2019", pub := some "ApJ" }

/-- A backend on which exactly the bibcode `2019ApJ...878...98S`
resolves and every other lookup returns no records. -/
def exportDemoBackend : Backend :=
  { emptyBackend with
    search := fun p =>
      if p.bibcode = some "2019ApJ...878...98S" then .ok [demoPaper] else .ok [] }

/-- C6 witness: the theorem applied to the spec example
`["2019ApJ...878...98S", "BOGUS"]` where only the first resolves: one
full citation block, one "not found" marker, and an overall success
envelope. -/
theorem C6_export_degrades_per_entry_witness :
    export_bibtex exportDemoBackend ["2019ApJ...878...98S", "BOGUS"] =
      (textEnvelope ("BibTeX Citations:\n\n" ++ String.intercalate "\n"
        [bibtexEntry "2019ApJ...878...98S" demoPaper,
         "% Paper not found: " ++ "BOGUS" ++ "\n"]),
       [GatewayCall.search (bibcodeLookupParams "2019ApJ...878...98S"),
        GatewayCall.search (bibcodeLookupParams "BOGUS")]) := by
  have hyp : ∀ bc ∈ ["2019ApJ...878...98S", "BOGUS"], ∃ ps,
      exportDemoBackend.search (bibcodeLookupParams bc) = Except.ok ps := by
    intro bc hbc
    rcases List.mem_cons.mp hbc with h1 | h1
    · subst h1
      exact ⟨[demoPaper], rfl⟩
    · rcases List.mem_cons.mp h1 with h2 | h2
      · subst h2
        exact ⟨[], rfl⟩
      · exact absurd h2 (List.not_mem_nil bc)
  exact (C6_export_degrades_per_entry exportDemoBackend
    ["2019ApJ...878...98S", "BOGUS"] hyp).1

/-- C7: a paper with no title, no authors and a missing citation count
renders with the documented placeholders in both the search-result
line and the detail block; a citation count of zero renders the same
way; and every optional field of the detail block (publication venue,
DOI, keywords, abstract) falls back to its placeholder.  The embedded
formatters are total functions of the record, mirroring that no field
access of the source can raise. -/
theorem C7_formatter_placeholders (i : Nat) (bc yr : String) :
    formatSearchPaper i { bibcode := bc, year := yr } =
      toString i ++ ". " ++ "No title" ++
      "\n   Authors: " ++ "Unknown" ++
      "\n   Year: " ++ yr ++
      "\n   Citations: " ++ "0" ++
      "\n   Bibcode: " ++ bc ++ "\n" ∧
    formatSearchPaper i { bibcode := bc, year := yr, citation_count := some 0 } =
      formatSearchPaper i { bibcode := bc, year := yr } ∧
    formatPaperDetails { bibcode := bc, year := yr } =
      String.intercalate "\n"
        ["Title: " ++ "No title",
         "Authors: " ++ "Unknown",
         "Publication: " ++ "Unknown",
         "Year: " ++ yr,
         "Citations: " ++ "0",
         "DOI: " ++ "N/A",
         "Keywords: " ++ "None",
         "Bibcode: " ++ bc,
         "",
         "Abstract:",
         "No abstract available"] ∧
    formatPaperDetails { bibcode := bc, year := yr, citation_count := some 0 } =
      formatPaperDetails { bibcode := bc, year := yr } := by
  refine ⟨?_, ?_, ?_, ?_⟩ <;> (dsimp only [formatSearchPaper, formatPaperDetails]; rfl)

/-- C8 counterexample: a bibcode list containing an empty entry and a
whitespace-only entry reaches the backend with both entries still
present; they are not stripped, so the payload differs from the
stripped list the claim requires. -/
theorem C8_counterexample :
    (add_to_library emptyBackend "L1" ["", "  ", "X"]).2 =
      [GatewayCall.biblibAdd "L1" ["", "  ", "X"]] ∧
    (["", "  ", "X"] : List String) ≠ ["X"] :=
  ⟨rfl, by decide⟩

/-- C8 (amended): bibcode lists and library identifiers are passed
through to the backend completely unmodified — no stripping of empty
or whitespace-only entries occurs anywhere: the add-to-library payload
carries the requested list verbatim, the export loop looks up every
requested bibcode including empty ones, and the library fetch uses the
identifier as given. -/
theorem C8_passthrough_unmodified (b : Backend) (lid : String)
    (bibcodes : List String)
    (h : ∀ bc ∈ bibcodes, ∃ ps, b.search (bibcodeLookupParams bc) = Except.ok ps) :
    (add_to_library b lid bibcodes).2 = [GatewayCall.biblibAdd lid bibcodes] ∧
    (export_bibtex b bibcodes).2 =
      bibcodes.map (fun bc => GatewayCall.search (bibcodeLookupParams bc)) ∧
    (get_library_papers b lid).2.head? = some (GatewayCall.biblibGet lid) := by
  refine ⟨?_, ?_, ?_⟩
  · unfold add_to_library
    cases b.biblibAdd lid bibcodes <;> rfl
  · unfold export_bibtex
    rw [exportLoop_ok b bibcodes h]
    rw [apply_ite Prod.snd]
    simp
  · unfold get_library_papers
    cases b.biblibGet lid with
    | error e => rfl
    | ok data =>
      simp only []
      split
      · rfl
      · cases b.search (libraryPapersParams data.documents) <;> rfl

/-- C8 witness: the amended theorem applied to a list containing an
empty-string bibcode, which reaches both backends unstripped. -/
theorem C8_passthrough_unmodified_witness :
    (add_to_library emptyBackend "L1" ["", "X"]).2 =
      [GatewayCall.biblibAdd "L1" ["", "X"]] ∧
    (export_bibtex emptyBackend ["", "X"]).2 =
      [GatewayCall.search (bibcodeLookupParams ""),
       GatewayCall.search (bibcodeLookupParams "X")] := by
  have h := C8_passthrough_unmodified emptyBackend "L1" ["", "X"]
    (fun bc _ => ⟨[], rfl⟩)
  exact ⟨h.1, h.2.1⟩

/-- Does the string contain a decimal digit anywhere?  Any rendering
of a total author count would have to contain one. -/
def containsDigit (s : String) : Bool := s.data.any (fun c => c.isDigit)

/-- C9 counterexample: the collection-listing author string for a
three-author paper is truncated to two names with a bare "et al."
suffix that carries no total author count at all (no digit occurs in
it), against the claimed "et al. (total count)" suffix. -/
theorem C9_counterexample :
    libraryAuthorStr ["Adams, A.", "Brown, B.", "Clark, C."] =
      "Adams, A., Brown, B. et al." ∧
    containsDigit "Adams, A., Brown, B. et al." = false :=
  ⟨rfl, by decide⟩

/-- C9 (amended): the search-result rendering truncates to the first
three authors and, once more than three exist, appends
"et al. (k authors)" with the total count; the collection listing
truncates to the first two and, once more than two exist, appends a
bare "et al." suffix without the total count. -/
theorem C9_author_truncation (a b c d : String) (rest : List String) :
    searchAuthorStr (a :: b :: c :: d :: rest) =
      String.intercalate ", " [a, b, c] ++ " et al. (" ++
        toString (a :: b :: c :: d :: rest).length ++ " authors)" ∧
    libraryAuthorStr (a :: b :: c :: rest) =
      String.intercalate ", " [a, b] ++ " et al." := by
  refine ⟨?_, ?_⟩
  · simp only [searchAuthorStr]
    split
    · rfl
    · rename_i hfalse
      exfalso
      simp only [List.isEmpty_cons, Bool.not_false, Bool.true_and,
        decide_eq_true_eq, List.length_cons] at hfalse
      omega
  · simp only [libraryAuthorStr]
    split
    · rfl
    · rename_i hfalse
      exfalso
      simp only [List.isEmpty_cons, Bool.not_false, Bool.true_and,
        decide_eq_true_eq, List.length_cons] at hfalse
      omega

/-- C10: on any successful backend response, whatever its body, the
add-to-library success text reports the length of the requested
bibcode list; the response body is never consulted, so duplicate or
already-present bibcodes are still counted. -/
theorem C10_add_count_ignores_body (b : Backend) (lid : String)
    (bibcodes : List String) (body : String)
    (h : b.biblibAdd lid bibcodes = Except.ok body) :
    add_to_library b lid bibcodes =
      (textEnvelope ("✓ Added " ++ toString bibcodes.length ++
        " paper(s) to library " ++ lid),
       [GatewayCall.biblibAdd lid bibcodes]) := by
  unfold add_to_library
  rw [h]

/-- C10 witness: the theorem applied to a duplicated bibcode list,
counted as two papers regardless of the (empty) response body. -/
theorem C10_add_count_ignores_body_witness :
    add_to_library emptyBackend "L1" ["X", "X"] =
      (textEnvelope ("✓ Added " ++ toString (["X", "X"] : List String).length ++
        " paper(s) to library " ++ "L1"),
       [GatewayCall.biblibAdd "L1" ["X", "X"]]) :=
  C10_add_count_ignores_body emptyBackend "L1" ["X", "X"] "" rfl

end NasaAdsMcp
